import Mathlib

/-
Verification of the ginx middleware repository: a shallow embedding of the
jwt codec (jwt/jwtcore/token.go, options.go), the authentication middleware
(jwt/middleware.go), the refresh-token handler (jwt/refresh_handler.go) and
the rate-gate middlewares (middlewares/limit/..., middlewares/ratelimit/...).

Modelling conventions:
- Times are natural numbers counting nanoseconds since the epoch
  (Go time.Time / time.Duration at nanosecond resolution).
- The external golang-jwt/jwt/v5 library is embedded at the level the
  repository uses it: a token string is represented by its parse shape
  (a well-formed three-segment token carrying an algorithm name, a claims
  payload and a signature, or a malformed string).  An HMAC signature is
  modelled as the triple of algorithm, key and signed payload, so two
  signatures agree exactly when algorithm, key and payload agree.
  The library truncates every claim date to whole seconds
  (jwt.TimePrecision = time.Second: NewNumericDate truncates on write and
  NumericDate.MarshalJSON truncates on serialization), and its validator
  checks, in order: expiry (valid iff now < exp) then not-before
  (valid iff nbf <= now); issued-at is not validated by default.
  The parser checks well-formedness, then the signature, then the claims.
- Go functions stored in configuration fields that the repository treats as
  deterministic per call (the clock func() time.Time and the ID generator
  func() string of TokenManagerServer) are modelled by their value.
-/

namespace Ginx

/-- nsPerSec is the number of nanoseconds in one second (Go time.Second). -/
def nsPerSec : Nat := 1000000000

/-- truncSec truncates a nanosecond timestamp down to a whole second,
as Go time.Time.Truncate(time.Second) does for times after the epoch.
This is jwt.TimePrecision behaviour of the golang-jwt library. -/
def truncSec (t : Nat) : Nat := t / nsPerSec * nsPerSec

/-- RegisteredFields are the seven standard JWT claim fields that the
jwtcore.Claims interface (jwt/jwtcore/claims.go) exposes setters for:
issuer, subject, audience, expiration, not-before, issued-at and ID.
Absent temporal claims are None. -/
structure RegisteredFields where
  issuer : String
  subject : String
  audience : List String
  expiresAt : Option Nat
  notBefore : Option Nat
  issuedAt : Option Nat
  jwtID : String
  deriving DecidableEq, Repr

/-- GoClaims models a caller claims type T satisfying jwtcore.Claims[T]:
caller-defined data of type alpha together with the registered fields. -/
structure GoClaims (α : Type) where
  data : α
  reg : RegisteredFields
  deriving DecidableEq, Repr

/-- TokenFailure enumerates the typed failure causes of the jwt library
relevant to verification: malformed token, invalid signature, expired,
not yet valid, and claims-type mismatch. -/
inductive TokenFailure where
  | malformed
  | signatureInvalid
  | expired
  | notYetValid
  | claimsTypeMismatch
  deriving DecidableEq, Repr

/-- failureMsg is the message text of each library failure cause
(the rendering of the jwt.ErrToken* sentinel errors). -/
def failureMsg : TokenFailure → String
  | .malformed => "token is malformed"
  | .signatureInvalid => "token signature is invalid"
  | .expired => "token has invalid claims: token is expired"
  | .notYetValid => "token has invalid claims: token is not valid yet"
  | .claimsTypeMismatch => "token has unexpected claims type"

/-- GoErr models a Go error value: its rendered message, plus the typed
cause visible to errors.Is through the wrapped-error chain.  An error
built with fmt.Errorf and the %v verb carries no wrapped cause. -/
structure GoErr where
  msg : String
  cause : Option TokenFailure
  deriving DecidableEq, Repr

/-- Sig models an HMAC signature over the two signed segments of a token:
it is determined by the header algorithm, the key and the payload, and two
signatures compare equal exactly when those three agree. -/
structure Sig (α : Type) where
  alg : String
  key : String
  payload : GoClaims α
  deriving DecidableEq, Repr

/-- Tok is a token string as seen through the jwt parser: either a
well-formed three-segment token (header algorithm, claims payload,
signature) or a malformed string. -/
inductive Tok (α : Type) where
  | signed (alg : String) (claims : GoClaims α) (sig : Sig α)
  | malformed (raw : String)
  deriving DecidableEq, Repr

/-- TokenManagerServer embeds the struct of jwt/jwtcore/token.go: encryption
and decryption keys, signing method, expiry duration, issuer, the ID
generator and the clock.  The two function-valued fields genIDFn and
timeFunc are modelled by the value they return. -/
structure TokenManagerServer (α : Type) where
  encryptionKey : String
  decryptKey : String
  method : String
  expire : Nat
  issuer : String
  genIDFn : String
  timeFunc : Nat
  deriving DecidableEq, Repr

/-- newTokenManagerServer embeds NewTokenManagerServer (token.go:30):
decrypt key defaults to the encryption key, method to HS256, genIDFn to the
constant empty string; timeFunc defaults to time.Now, whose reading is the
now argument here. -/
def newTokenManagerServer (encryptionKey : String) (expire : Nat) (now : Nat) :
    TokenManagerServer α :=
  { encryptionKey := encryptionKey
    decryptKey := encryptionKey
    method := "HS256"
    expire := expire
    issuer := ""
    genIDFn := ""
    timeFunc := now }

/-- wireOf is the serialization step of jwt.NewWithClaims/SignedString: the
dates already stamped are stored truncated, and a caller-supplied not-before
date is truncated to whole seconds by NumericDate.MarshalJSON.  All other
fields serialize exactly. -/
def wireOf (c : GoClaims α) : GoClaims α :=
  { c with reg := { c.reg with notBefore := c.reg.notBefore.map truncSec } }

/-- generateToken embeds GenerateToken (token.go:46-55): read the clock,
stamp issuer, expiry (now + Expire, truncated to seconds by
jwt.NewNumericDate), issued-at (now, truncated) and the generated ID onto a
copy of the claims, then serialize and sign with the encryption key.
Signing a serializable claims value cannot fail, so the Go error result is
always nil and is omitted here. -/
def TokenManagerServer.generateToken (t : TokenManagerServer α) (clm : GoClaims α) : Tok α :=
  let nowTime := t.timeFunc
  let stamped : GoClaims α :=
    { clm with reg := { clm.reg with
        issuer := t.issuer
        expiresAt := some (truncSec (nowTime + t.expire))
        issuedAt := some (truncSec nowTime)
        jwtID := t.genIDFn } }
  let w := wireOf stamped
  Tok.signed t.method w ⟨t.method, t.encryptionKey, w⟩

/-- validateClaims embeds the jwt/v5 claims validator with zero leeway and
default options: expiry is checked first (valid iff now is strictly before
exp), then not-before (valid iff nbf is not after now); an absent claim
passes; issued-at is not checked. -/
def validateClaims (now : Nat) (c : GoClaims α) : Option TokenFailure :=
  if c.reg.expiresAt.all (fun e => now < e) then
    if c.reg.notBefore.all (fun n => n ≤ now) then none
    else some TokenFailure.notYetValid
  else some TokenFailure.expired

/-- parseWithClaims embeds jwt.ParseWithClaims with a key function returning
decryptKey: a malformed string fails first; then the signature of the two
signed segments is recomputed from the header algorithm and the key and
compared; then the claims are validated against the clock. -/
def parseWithClaims [DecidableEq α] (decryptKey : String) (now : Nat) (tok : Tok α) :
    Except TokenFailure (GoClaims α) :=
  match tok with
  | .malformed _ => .error .malformed
  | .signed alg claims sig =>
    if sig = ⟨alg, decryptKey, claims⟩ then
      match validateClaims now claims with
      | some f => .error f
      | none => .ok claims
    else .error .signatureInvalid

/-- verifyMsg is the fixed message prefix of the error VerifyToken returns. -/
def verifyMsg : String := "验证失败: "

/-- verifyToken embeds VerifyToken (token.go:58-73): parse with the decrypt
key and the configured clock; on any parse or validation error return the
zero claims and an error built with fmt.Errorf("...: %v", err), which
renders the library error into the message but drops the typed cause from
the wrapped chain; on success return the decoded claims. -/
def TokenManagerServer.verifyToken [DecidableEq α] (t : TokenManagerServer α) (tok : Tok α) :
    Except GoErr (GoClaims α) :=
  match parseWithClaims t.decryptKey t.timeFunc tok with
  | .error f => .error { msg := verifyMsg ++ failureMsg f, cause := none }
  | .ok clm => .ok clm

/-- stampedClaims states, from the words of the spec, what the round-trip of
claims c through codec t must return: issuer, expiration, issued-at and ID
overwritten to the codec-computed values, data, subject and audience
unchanged, and not-before carried through serialization (hence truncated to
the encoding precision). -/
def stampedClaims (t : TokenManagerServer α) (c : GoClaims α) : GoClaims α :=
  { data := c.data
    reg := { issuer := t.issuer
             subject := c.reg.subject
             audience := c.reg.audience
             expiresAt := some (truncSec (t.timeFunc + t.expire))
             notBefore := c.reg.notBefore.map truncSec
             issuedAt := some (truncSec t.timeFunc)
             jwtID := t.genIDFn } }

/-- mgrSmall is a codec with a one second expiry and the clock at the epoch. -/
def mgrSmall : TokenManagerServer Unit :=
  newTokenManagerServer "k" nsPerSec 0

/-- mgrZero is a codec configured with a zero expiry duration. -/
def mgrZero : TokenManagerServer Unit :=
  newTokenManagerServer "k" 0 (5 * nsPerSec)

/-- mgrHalf is a codec with a one second expiry whose clock reads half a
second past a whole second boundary. -/
def mgrHalf : TokenManagerServer Unit :=
  newTokenManagerServer "k" nsPerSec (nsPerSec / 2)

/-- claimsU is a claims value with empty caller data and no temporal claims. -/
def claimsU : GoClaims Unit :=
  { data := ()
    reg := { issuer := "", subject := "", audience := [], expiresAt := none,
             notBefore := none, issuedAt := none, jwtID := "" } }

/-- GinCtx models the slice of gin.Context state this repository touches:
the authorization request header (the empty string when the header is
absent, as gin GetHeader reports), the matched route full path, the
per-request key-value entry stored under the "claims" key, the aborted
flag, the response status and the response headers. -/
structure GinCtx (α : Type) where
  authorization : String
  fullPath : String
  claimsVal : Option (GoClaims α)
  aborted : Bool
  status : Option Nat
  respHeaders : List (String × String)
  deriving DecidableEq, Repr

/-- setStatus embeds gin Context.Status: record the response status code. -/
def setStatus (c : GinCtx α) (code : Nat) : GinCtx α :=
  { c with status := some code }

/-- abortWithStatus embeds gin Context.AbortWithStatus: mark the request
aborted and record the status code. -/
def abortWithStatus (c : GinCtx α) (code : Nat) : GinCtx α :=
  { c with aborted := true, status := some code }

/-- setKV writes a response header, replacing any previous value under the
same name, as gin Context.Header does. -/
def setKV (l : List (String × String)) (k v : String) : List (String × String) :=
  l.filter (fun p => p.1 != k) ++ [(k, v)]

/-- setHeader embeds gin Context.Header on the modelled context. -/
def setHeader (c : GinCtx α) (k v : String) : GinCtx α :=
  { c with respHeaders := setKV c.respHeaders k v }

/-- TokenManagerI models the jwtcore.TokenManager interface as the
middleware and the refresh manager consume it: token strings are opaque at
this layer.  GenerateToken may fail with an error; VerifyToken returns the
claims or an error. -/
structure TokenManagerI (α : Type) where
  generateToken : GoClaims α → Except GoErr String
  verifyToken : String → Except GoErr (GoClaims α)

/-- MiddlewareBuilder embeds the builder of jwt/middleware.go: the
ignore-path predicate, the token extraction function, the claims
attachment function and the injected token manager. -/
structure MiddlewareBuilder (α : Type) where
  ignorePath : GinCtx α → Bool
  extractToken : GinCtx α → String
  setClaims : GinCtx α → GoClaims α → GinCtx α
  tokenManager : TokenManagerI α

/-- strIsPre is Go strings.HasPrefix on the character level; since every
use here matches the ASCII text Bearer-space, the byte-level check of Go
agrees with this character-level one. -/
def strIsPre (p s : String) : Bool :=
  List.isPrefixOf p.data s.data

/-- strDrop drops the first n characters; for the ASCII 7-byte text
Bearer-space this agrees with the Go byte slice authCode[7:]. -/
def strDrop (s : String) (n : Nat) : String :=
  String.mk (List.drop n s.data)

/-- defaultExtractToken embeds extractToken (jwt/middleware.go:119-132):
read the authorization header; the empty header yields no token; a header
beginning with the exact text built from "Bearer" and one space yields the
remainder after that text; anything else yields no token. -/
def defaultExtractToken (c : GinCtx α) : String :=
  let authCode := c.authorization
  if authCode = "" then ""
  else if strIsPre "Bearer " authCode then strDrop authCode 7
  else ""

/-- ignoreFullPaths embeds ignoreFullPaths (jwt/middleware.go:107-116):
membership of the request full path in the configured set. -/
def ignoreFullPaths (paths : List String) : GinCtx α → Bool :=
  fun c => paths.contains c.fullPath

/-- newMiddlewareBuilder embeds NewMiddlewareBuilder
(jwt/middleware.go:37-49): never ignore, default extraction, attach claims
under the "claims" key of the context store. -/
def newMiddlewareBuilder (m : TokenManagerI α) : MiddlewareBuilder α :=
  { ignorePath := fun _ => false
    extractToken := defaultExtractToken
    setClaims := fun c t => { c with claimsVal := some t }
    tokenManager := m }

/-- buildRun embeds one request through the gin.HandlerFunc returned by
MiddlewareBuilder.Build (jwt/middleware.go:76-100): pass through on an
ignored path; abort 401 on an empty extracted token; abort 401 when
VerifyToken errs; otherwise attach the claims.  Alongside the final
context it returns the list of token strings passed to VerifyToken, so
that claims about the codec never being invoked are statable. -/
def buildRun (m : MiddlewareBuilder α) (c : GinCtx α) : GinCtx α × List String :=
  if m.ignorePath c then (c, [])
  else
    let tokenStr := m.extractToken c
    if tokenStr = "" then (abortWithStatus c 401, [])
    else
      match m.tokenManager.verifyToken tokenStr with
      | .error _ => (abortWithStatus c 401, [tokenStr])
      | .ok clm => (m.setClaims c clm, [tokenStr])

/-- REvent records the externally visible emission steps of the refresh
handler, in execution order: the access-token setter, the refresh-token
setter, and the response finalizer. -/
inductive REvent where
  | setAccessEv (tok : String)
  | setRefreshEv (tok : String)
  | respondEv
  deriving DecidableEq, Repr

/-- RefreshManager embeds the struct of jwt/refresh_handler.go: access and
refresh token managers, rotation flag, the authentication handler, the
claims getter, the two token setters, and the response handler. -/
structure RefreshManager (α : Type) where
  accessTM : TokenManagerI α
  refreshTM : TokenManagerI α
  rotateRefreshToken : Bool
  refreshAuthHandler : GinCtx α → GinCtx α
  getClaims : GinCtx α → Option (GoClaims α)
  accessTokenSetterFn : GinCtx α → String → GinCtx α
  refreshTokenSetterFn : GinCtx α → String → GinCtx α
  responseHandler : GinCtx α → GinCtx α

/-- newRefreshManager embeds NewRefreshManager
(jwt/refresh_handler.go:51-75): rotation disabled; the authentication
handler is the middleware built over the refresh manager; the claims
getter reads the "claims" key; the setters write the x-access-token and
x-refresh-token response headers; the response handler sets status 204. -/
def newRefreshManager (accessTM refreshTM : TokenManagerI α) : RefreshManager α :=
  { accessTM := accessTM
    refreshTM := refreshTM
    rotateRefreshToken := false
    refreshAuthHandler := fun c => (buildRun (newMiddlewareBuilder refreshTM) c).1
    getClaims := fun c => c.claimsVal
    accessTokenSetterFn := fun c tok => setHeader c "x-access-token" tok
    refreshTokenSetterFn := fun c tok => setHeader c "x-refresh-token" tok
    responseHandler := fun c => setStatus c 204 }

/-- handler embeds RefreshManager.Handler (jwt/refresh_handler.go:124-157):
run the authentication handler and stop if it aborted; status 500 when the
claims getter misses; generate the access token, on failure status 500;
emit it through the access setter; when rotation is enabled generate the
refresh token, on failure status 500 without touching the refresh setter
or the response handler; otherwise emit it and finish with the response
handler.  The second component lists the emission steps actually taken in
order. -/
def RefreshManager.handler (m : RefreshManager α) (c : GinCtx α) :
    GinCtx α × List REvent :=
  let c1 := m.refreshAuthHandler c
  if c1.aborted then (c1, [])
  else
    match m.getClaims c1 with
    | none => (setStatus c1 500, [])
    | some clm =>
      match m.accessTM.generateToken clm with
      | .error _ => (setStatus c1 500, [])
      | .ok accessToken =>
        let c2 := m.accessTokenSetterFn c1 accessToken
        if m.rotateRefreshToken then
          match m.refreshTM.generateToken clm with
          | .error _ => (setStatus c2 500, [REvent.setAccessEv accessToken])
          | .ok refreshToken =>
            (m.responseHandler (m.refreshTokenSetterFn c2 refreshToken),
              [REvent.setAccessEv accessToken, REvent.setRefreshEv refreshToken,
                REvent.respondEv])
        else (m.responseHandler c2, [REvent.setAccessEv accessToken, REvent.respondEv])

/-- Heap models the Go heap for the pointer-based builder structs: a list
of cells addressed by index.  Reading and writing a cell embeds
dereferencing and assigning through a pointer; alloc embeds taking the
address of a fresh struct value. -/
def Heap (β : Type) : Type := List β

/-- read dereferences a heap cell. -/
def Heap.read [Inhabited β] (h : Heap β) (r : Nat) : β :=
  List.getD h r default

/-- write assigns a heap cell through its pointer. -/
def Heap.write (h : Heap β) (r : Nat) (v : β) : Heap β :=
  List.set h r v

/-- alloc places a struct value in a fresh cell and returns its address. -/
def Heap.alloc (h : Heap β) (v : β) : Heap β × Nat :=
  (List.append h [v], List.length h)

/-- size is the number of allocated cells. -/
def Heap.size (h : Heap β) : Nat := List.length h

instance : Inhabited (TokenManagerServer α) :=
  ⟨newTokenManagerServer "" 0 0⟩

instance : Inhabited (TokenManagerI α) :=
  ⟨{ generateToken := fun _ => .error { msg := "", cause := none }
     verifyToken := fun _ => .error { msg := "", cause := none } }⟩

instance : Inhabited (MiddlewareBuilder α) :=
  ⟨newMiddlewareBuilder default⟩

/-- TMSOption models a jwtcore option (jwt/jwtcore/options.go): its apply
method mutates fields of the TokenManagerServer the pointer refers to, so
an option is the mutation it performs on the pointed-to struct value. -/
def TMSOption (α : Type) : Type := TokenManagerServer α → TokenManagerServer α

/-- withDecryptKey embeds WithDecryptKey (options.go:21-25). -/
def withDecryptKey (key : String) : TMSOption α :=
  fun t => { t with decryptKey := key }

/-- withMethod embeds WithMethod (options.go:27-31). -/
def withMethod (m : String) : TMSOption α :=
  fun t => { t with method := m }

/-- withIssuer embeds WithIssuer (options.go:33-37). -/
def withIssuer (issuer : String) : TMSOption α :=
  fun t => { t with issuer := issuer }

/-- withGenIDFunc embeds WithGenIDFunc (options.go:39-43), the generator
modelled by its returned value. -/
def withGenIDFunc (fn : String) : TMSOption α :=
  fun t => { t with genIDFn := fn }

/-- withTimeFunc embeds WithTimeFunc (options.go:45-49), the clock modelled
by its reading. -/
def withTimeFunc (fn : Nat) : TMSOption α :=
  fun t => { t with timeFunc := fn }

/-- withOptionsH embeds TokenManagerServer.WithOptions (token.go:75-81) at
the heap level: clone (token.go:83-86) copies the pointed-to struct value
into a fresh cell, each option is applied through the pointer to that
clone, and the pointer to the clone is returned. -/
def withOptionsH (h : Heap (TokenManagerServer α)) (r : Nat)
    (opts : List (TMSOption α)) : Heap (TokenManagerServer α) × Nat :=
  let hc := Heap.alloc h (Heap.read h r)
  (opts.foldl (fun hh o => Heap.write hh hc.2 (o (Heap.read hh hc.2))) hc.1, hc.2)

/-- ignorePathFuncH embeds MiddlewareBuilder.IgnorePathFunc
(jwt/middleware.go:52-55) at the heap level: assign the field through the
receiver pointer and return the same pointer. -/
def ignorePathFuncH (h : Heap (MiddlewareBuilder α)) (r : Nat)
    (fn : GinCtx α → Bool) : Heap (MiddlewareBuilder α) × Nat :=
  (Heap.write h r { Heap.read h r with ignorePath := fn }, r)

/-- setExtractTokenFuncH embeds SetExtractTokenFunc (middleware.go:58-61). -/
def setExtractTokenFuncH (h : Heap (MiddlewareBuilder α)) (r : Nat)
    (fn : GinCtx α → String) : Heap (MiddlewareBuilder α) × Nat :=
  (Heap.write h r { Heap.read h r with extractToken := fn }, r)

/-- setClaimsFuncH embeds SetClaimsFunc (middleware.go:64-67). -/
def setClaimsFuncH (h : Heap (MiddlewareBuilder α)) (r : Nat)
    (fn : GinCtx α → GoClaims α → GinCtx α) : Heap (MiddlewareBuilder α) × Nat :=
  (Heap.write h r { Heap.read h r with setClaims := fn }, r)

/-- ignoreFullPathH embeds IgnoreFullPath (middleware.go:71-73): it
delegates to IgnorePathFunc with the full-path membership predicate. -/
def ignoreFullPathH (h : Heap (MiddlewareBuilder α)) (r : Nat)
    (paths : List String) : Heap (MiddlewareBuilder α) × Nat :=
  ignorePathFuncH h r (ignoreFullPaths paths)

/-- runBuilt embeds invoking, on one request, a gin.HandlerFunc previously
returned by Build: the closure captured the builder pointer, so every
configuration field is read from that cell at invocation time. -/
def runBuilt (h : Heap (MiddlewareBuilder α)) (r : Nat) (c : GinCtx α) :
    GinCtx α × List String :=
  buildRun (Heap.read h r) c

/-- LimErr models the error a limiter backend may return, distinguishing
the context deadline-exceeded and cancellation sentinels that errors.Is
recognises from any other backend error. -/
inductive LimErr where
  | deadlineExceeded
  | canceled
  | other (msg : String)
  deriving DecidableEq, Repr

/-- SWBuilder embeds the slide-window builder
(middlewares/limit/slidewindowlimit/builder.go): the injected limiter,
called with the derived key, and the key derivation function. -/
structure SWBuilder (α : Type) where
  limiter : String → Except LimErr Bool
  genKeyFn : GinCtx α → String

/-- swBuild embeds Builder.Build of the slide-window gate (builder.go:53-68)
on one request: a limiter error aborts 500, an over-capacity report aborts
429, otherwise the rest of the chain runs. -/
def swBuild (b : SWBuilder α) (next : GinCtx α → GinCtx α) (c : GinCtx α) :
    GinCtx α :=
  match b.limiter (b.genKeyFn c) with
  | .error _ => abortWithStatus c 500
  | .ok true => abortWithStatus c 429
  | .ok false => next c

/-- BucketBuilder embeds the bucket builder
(middlewares/ratelimit/bucketlimit/builder.go): the injected limiter,
always called with the empty key. -/
structure BucketBuilder (α : Type) where
  limiter : String → Except LimErr Bool

/-- bucketBuild embeds Builder.Build of the bucket gate (builder.go:31-51)
on one request: with no error, over capacity aborts 429 and otherwise the
chain runs; an error matching context.DeadlineExceeded or context.Canceled
aborts 504; any other error aborts 500. -/
def bucketBuild (b : BucketBuilder α) (next : GinCtx α → GinCtx α)
    (c : GinCtx α) : GinCtx α :=
  match b.limiter "" with
  | .ok true => abortWithStatus c 429
  | .ok false => next c
  | .error .deadlineExceeded => abortWithStatus c 504
  | .error .canceled => abortWithStatus c 504
  | .error (.other _) => abortWithStatus c 500

/-- ALimiter embeds the active-count Limiter interface
(middlewares/limit/activelimit): Limit acquires a slot for a key and
reports whether the request is over the ceiling; Decr releases the slot,
possibly reporting a backend error that the middleware only logs. -/
structure ALimiter where
  limit : String → Except LimErr Bool
  decr : String → Option LimErr

/-- ActiveBuilder embeds the active-count builder
(middlewares/limit/activelimit/builder.go). -/
structure ActiveBuilder (α : Type) where
  limiter : ALimiter
  genKeyFn : GinCtx α → String

/-- HandlerOutcome models how the rest of the chain finishes: a normal
return with a final context, or a panic propagating out. -/
inductive HandlerOutcome (α : Type) where
  | normal (c : GinCtx α)
  | panicked

/-- activeBuild embeds Builder.Build of the active-count gate
(builder.go:53-75) on one request.  The acquire call (Builder.limit,
builder.go:77-79) runs first; on error the request aborts 500 before the
deferred release is registered, so no Decr happens.  On success the defer
registers one Decr with the recomputed key; it runs when the handler
returns from the 429 path, when the chain returns normally, and during
panic unwinding before the panic continues.  The second component lists
the keys passed to Decr in order. -/
def activeBuild (b : ActiveBuilder α) (next : GinCtx α → HandlerOutcome α)
    (c : GinCtx α) : HandlerOutcome α × List String :=
  match b.limiter.limit (b.genKeyFn c) with
  | .error _ => (.normal (abortWithStatus c 500), [])
  | .ok limited =>
    if limited then (.normal (abortWithStatus c 429), [b.genKeyFn c])
    else
      match next c with
      | .normal cN => (.normal cN, [b.genKeyFn c])
      | .panicked => (.panicked, [b.genKeyFn c])

/-- isOkE reports whether an Except value is a success. -/
def isOkE : Except ε β → Bool
  | .ok _ => true
  | .error _ => false

/-- tmGoodI is a token manager whose generation yields the fixed token AT
and whose verification accepts everything. -/
def tmGoodI : TokenManagerI Unit :=
  { generateToken := fun _ => .ok "AT"
    verifyToken := fun _ => .ok claimsU }

/-- tmRefreshI is a token manager whose generation yields the fixed token
RT and whose verification accepts everything. -/
def tmRefreshI : TokenManagerI Unit :=
  { generateToken := fun _ => .ok "RT"
    verifyToken := fun _ => .ok claimsU }

/-- tmGenFailI is a token manager whose verification accepts everything but
whose generation always fails. -/
def tmGenFailI : TokenManagerI Unit :=
  { generateToken := fun _ => .error { msg := "boom", cause := none }
    verifyToken := fun _ => .ok claimsU }

/-- ctxBearer is a fresh request context carrying the header
authorization: Bearer x. -/
def ctxBearer : GinCtx Unit :=
  { authorization := "Bearer x", fullPath := "/", claimsVal := none,
    aborted := false, status := none, respHeaders := [] }

/-- ctxNoAuth is a fresh request context with no authorization header. -/
def ctxNoAuth : GinCtx Unit :=
  { authorization := "", fullPath := "/", claimsVal := none,
    aborted := false, status := none, respHeaders := [] }

/-- heapTMS is a one-cell heap holding the codec mgrSmall. -/
def heapTMS : Heap (TokenManagerServer Unit) := [mgrSmall]

/-- heapMwB is a one-cell heap holding a freshly constructed builder. -/
def heapMwB : Heap (MiddlewareBuilder Unit) := [newMiddlewareBuilder tmGoodI]

/-- swErrB is a slide-window builder whose limiter reports a backend error. -/
def swErrB : SWBuilder Unit :=
  { limiter := fun _ => .error (LimErr.other "down")
    genKeyFn := fun _ => "all_req_rate_limiter" }

/-- swLimB is a slide-window builder whose limiter reports over capacity. -/
def swLimB : SWBuilder Unit :=
  { limiter := fun _ => .ok true
    genKeyFn := fun _ => "all_req_rate_limiter" }

/-- bkDeadB is a bucket builder whose limiter reports deadline exceeded. -/
def bkDeadB : BucketBuilder Unit :=
  { limiter := fun _ => .error LimErr.deadlineExceeded }

/-- bkCancB is a bucket builder whose limiter reports cancellation. -/
def bkCancB : BucketBuilder Unit :=
  { limiter := fun _ => .error LimErr.canceled }

/-- bkErrB is a bucket builder whose limiter reports another backend error. -/
def bkErrB : BucketBuilder Unit :=
  { limiter := fun _ => .error (LimErr.other "down") }

/-- bkLimB is a bucket builder whose limiter reports over capacity. -/
def bkLimB : BucketBuilder Unit :=
  { limiter := fun _ => .ok true }

/-- alOkB is an active-count builder whose acquire succeeds under capacity. -/
def alOkB : ActiveBuilder Unit :=
  { limiter := { limit := fun _ => .ok false, decr := fun _ => none }
    genKeyFn := fun _ => "all_req_active_limiter" }

/-- alErrB is an active-count builder whose acquire reports a backend error. -/
def alErrB : ActiveBuilder Unit :=
  { limiter := { limit := fun _ => .error (LimErr.other "down"), decr := fun _ => none }
    genKeyFn := fun _ => "all_req_active_limiter" }

/-- C1 (counterexample): the round trip does not succeed for every codec.
For the codec mgrZero, whose expiry duration is zero, verifying the token
just generated fails as expired (the stamped expiry equals the clock time
and the validator requires the clock to be strictly before it), so
VerifyToken(GenerateToken(c)) returns an error and no Claims value. -/
theorem c1_roundTrip_cex :
    mgrZero.verifyToken (mgrZero.generateToken claimsU) =
      .error { msg := verifyMsg ++ failureMsg TokenFailure.expired, cause := none } := by
  rfl

/-- C1 (amended): for every claims value c and codec t whose decrypt key
equals its encryption key, whose clock time is strictly before the stamped
expiry (clock plus expiry truncated to the one-second encoding precision),
and whose caller-supplied not-before, if present, is not after the clock
time once truncated, VerifyToken(GenerateToken(c)) succeeds and returns c
with issuer, expiration, issued-at and ID overwritten to the codec-computed
values, data, subject and audience unchanged, and not-before preserved up
to second truncation.  When verification fails only an error is returned. -/
theorem c1_roundTrip [DecidableEq α] (t : TokenManagerServer α) (c : GoClaims α)
    (hkey : t.decryptKey = t.encryptionKey)
    (hexp : t.timeFunc < truncSec (t.timeFunc + t.expire))
    (hnbf : ∀ n, c.reg.notBefore = some n → truncSec n ≤ t.timeFunc) :
    t.verifyToken (t.generateToken c) = .ok (stampedClaims t c) := by
  cases hn : c.reg.notBefore with
  | none =>
    simp [TokenManagerServer.verifyToken, TokenManagerServer.generateToken,
      parseWithClaims, validateClaims, wireOf, stampedClaims, hkey, hexp, hn]
  | some n =>
    have h := hnbf n hn
    simp [TokenManagerServer.verifyToken, TokenManagerServer.generateToken,
      parseWithClaims, validateClaims, wireOf, stampedClaims, hkey, hexp, hn, h]

/-- C1 witness: the amended round trip holds at the concrete codec mgrSmall
and claims claimsU. -/
theorem c1_roundTrip_witness :
    mgrSmall.verifyToken (mgrSmall.generateToken claimsU) =
      .ok (stampedClaims mgrSmall claimsU) :=
  c1_roundTrip mgrSmall claimsU rfl (by decide) (fun n h => by simp [claimsU] at h)

/-- C2 (counterexample): the expiry boundary is not at nanosecond
resolution.  For the codec mgrHalf, whose clock reads half a second past a
whole second and whose expiry is one second, the stamped expiry truncates
down to the whole second, so verification at t0 + d - 1ns already fails as
expired although the claim says it succeeds. -/
theorem c2_expiryBoundary_cex :
    ({ mgrHalf with timeFunc := mgrHalf.timeFunc + mgrHalf.expire - 1 }).verifyToken
        (mgrHalf.generateToken claimsU) =
      .error { msg := verifyMsg ++ failureMsg TokenFailure.expired, cause := none } := by
  rfl

/-- C2 (amended): for a codec with matching keys whose clock t0 plus expiry
d lands on a whole second of the one-second encoding precision (and d at
least 1ns, not-before compatible), a token generated at t0 verifies at
clock t0 + d - 1ns and fails with the token-expired verification error at
every clock at or after t0 + d; in general the boundary is t0 + d truncated
to whole seconds. -/
theorem c2_expiryBoundary [DecidableEq α] (t : TokenManagerServer α) (c : GoClaims α)
    (hkey : t.decryptKey = t.encryptionKey)
    (hd : 1 ≤ t.expire)
    (halign : (t.timeFunc + t.expire) % nsPerSec = 0)
    (hnbf : ∀ n, c.reg.notBefore = some n → truncSec n ≤ t.timeFunc + t.expire - 1) :
    ({ t with timeFunc := t.timeFunc + t.expire - 1 }).verifyToken (t.generateToken c) =
        .ok (stampedClaims t c) ∧
      ∀ tv, t.timeFunc + t.expire ≤ tv →
        ({ t with timeFunc := tv }).verifyToken (t.generateToken c) =
          .error { msg := verifyMsg ++ failureMsg TokenFailure.expired, cause := none } := by
  have htr : truncSec (t.timeFunc + t.expire) = t.timeFunc + t.expire :=
    Nat.div_mul_cancel (Nat.dvd_of_mod_eq_zero halign)
  constructor
  · have hlt : t.timeFunc + t.expire - 1 < truncSec (t.timeFunc + t.expire) := by
      rw [htr]; omega
    cases hn : c.reg.notBefore with
    | none =>
      simp [TokenManagerServer.verifyToken, TokenManagerServer.generateToken,
        parseWithClaims, validateClaims, wireOf, stampedClaims, hkey, hn, hlt]
    | some n =>
      have h2 := hnbf n hn
      simp [TokenManagerServer.verifyToken, TokenManagerServer.generateToken,
        parseWithClaims, validateClaims, wireOf, stampedClaims, hkey, hn, hlt, h2]
  · intro tv htv
    have hge : ¬ (tv < truncSec (t.timeFunc + t.expire)) := by rw [htr]; omega
    simp [TokenManagerServer.verifyToken, TokenManagerServer.generateToken,
      parseWithClaims, validateClaims, wireOf, hkey, hge]

/-- C2 witness: the amended boundary behaviour at the codec mgrSmall,
success side, at the concrete clock one nanosecond before expiry. -/
theorem c2_expiryBoundary_witness :
    ({ mgrSmall with timeFunc := mgrSmall.timeFunc + mgrSmall.expire - 1 }).verifyToken
        (mgrSmall.generateToken claimsU) = .ok (stampedClaims mgrSmall claimsU) :=
  (c2_expiryBoundary mgrSmall claimsU rfl (by decide) (by decide)
    (fun n h => by simp [claimsU] at h)).1

/-- failureMsg composed with the fixed VerifyToken message text is
injective: distinct failure causes render distinct error messages. -/
theorem failureMsg_injective (f g : TokenFailure)
    (h : verifyMsg ++ failureMsg f = verifyMsg ++ failureMsg g) : g = f := by
  cases f <;> cases g <;> first | rfl | exact absurd h (by decide)

/-- C3 (counterexample): the error VerifyToken returns is not typed.  On
the concrete malformed input the returned error value has an empty wrapped
cause (fmt.Errorf with the %v verb drops the chain), so the failure cause
is not classified by the error value as a typed error. -/
theorem c3_typedError_cex :
    mgrZero.verifyToken (Tok.malformed "x") =
      .error { msg := verifyMsg ++ failureMsg TokenFailure.malformed, cause := none } := by
  rfl

/-- C3 (amended): whenever VerifyToken fails it returns a flat formatted
error: the typed cause is dropped from the wrapped chain (cause is none),
but the message is the fixed text followed by the library message of the
actual cause, and distinct causes give distinct messages, so the failure
cause remains distinguishable from the message text only. -/
theorem c3_flattenedError [DecidableEq α] (t : TokenManagerServer α) (tok : Tok α)
    (e : GoErr) (h : t.verifyToken tok = .error e) :
    e.cause = none ∧ ∃ f : TokenFailure, e.msg = verifyMsg ++ failureMsg f ∧
      ∀ g : TokenFailure, e.msg = verifyMsg ++ failureMsg g → g = f := by
  unfold TokenManagerServer.verifyToken at h
  revert h
  cases hp : parseWithClaims t.decryptKey t.timeFunc tok with
  | ok clm => intro h; cases h
  | error f =>
    intro h
    have he : ({ msg := verifyMsg ++ failureMsg f, cause := none } : GoErr) = e := by
      injection h
    cases he
    exact ⟨rfl, f, rfl, fun g hg => failureMsg_injective f g hg⟩

/-- C3 witness: the amended statement at the concrete malformed input. -/
theorem c3_flattenedError_witness :
    ({ msg := verifyMsg ++ failureMsg TokenFailure.malformed, cause := none } : GoErr).cause
      = none :=
  (c3_flattenedError mgrZero (Tok.malformed "x")
    { msg := verifyMsg ++ failureMsg TokenFailure.malformed, cause := none } rfl).1

/-- C4: with the default configuration, a request whose authorization
header is absent, or does not begin with the exact text Bearer-space, or is
exactly that text with nothing after it, is aborted with status 401 and
VerifyToken is never invoked. -/
theorem c4_missingBearer401 (tm : TokenManagerI α) (c : GinCtx α)
    (h : c.authorization = "" ∨ strIsPre "Bearer " c.authorization = false ∨
      c.authorization = "Bearer ") :
    (buildRun (newMiddlewareBuilder tm) c).1.aborted = true ∧
      (buildRun (newMiddlewareBuilder tm) c).1.status = some 401 ∧
      (buildRun (newMiddlewareBuilder tm) c).2 = [] := by
  have hex : defaultExtractToken c = "" := by
    unfold defaultExtractToken
    rcases h with h | h | h
    · simp [h]
    · simp [h]
    · rw [h]; decide
  simp [buildRun, newMiddlewareBuilder, abortWithStatus, hex]

/-- C4 witness: a request with no authorization header is rejected with 401
and the codec is not called. -/
theorem c4_missingBearer401_witness :
    (buildRun (newMiddlewareBuilder tmGoodI) ctxNoAuth).1.aborted = true ∧
      (buildRun (newMiddlewareBuilder tmGoodI) ctxNoAuth).1.status = some 401 ∧
      (buildRun (newMiddlewareBuilder tmGoodI) ctxNoAuth).2 = [] :=
  c4_missingBearer401 tmGoodI ctxNoAuth (Or.inl rfl)

/-- C5: under the default configuration, for a request that passes the
refresh authentication handler (token extracted and verified to claims clm)
with claims retrieval succeeding, and whose injected managers generate
tokens that verify back: with rotation disabled the handler writes exactly
the x-access-token header, its emission trace is the access setter followed
by the finalizer (so the refresh setter never runs), and the emitted access
token verifies under the access manager; with rotation enabled and both
generations succeeding it writes both headers with the respective generated
tokens and both emitted tokens verify under their respective managers. -/
theorem c5_refreshEmission (a r : TokenManagerI α) (c : GinCtx α) (s : String)
    (clm : GoClaims α) (atk rtk : String)
    (hab : c.aborted = false)
    (hex : defaultExtractToken c = s)
    (hs : s ≠ "")
    (hver : r.verifyToken s = .ok clm)
    (hga : a.generateToken clm = .ok atk)
    (hgr : r.generateToken clm = .ok rtk)
    (hva : isOkE (a.verifyToken atk) = true)
    (hvr : isOkE (r.verifyToken rtk) = true) :
    (((newRefreshManager a r).handler c).1.respHeaders =
        setKV c.respHeaders "x-access-token" atk ∧
      ((newRefreshManager a r).handler c).2 =
        [REvent.setAccessEv atk, REvent.respondEv] ∧
      isOkE (a.verifyToken atk) = true) ∧
    ((({ newRefreshManager a r with rotateRefreshToken := true }).handler c).1.respHeaders =
        setKV (setKV c.respHeaders "x-access-token" atk) "x-refresh-token" rtk ∧
      (({ newRefreshManager a r with rotateRefreshToken := true }).handler c).2 =
        [REvent.setAccessEv atk, REvent.setRefreshEv rtk, REvent.respondEv] ∧
      isOkE (a.verifyToken atk) = true ∧ isOkE (r.verifyToken rtk) = true) := by
  have hc1 : (buildRun (newMiddlewareBuilder r) c).1 = { c with claimsVal := some clm } := by
    simp [buildRun, newMiddlewareBuilder, hex, hs, hver]
  refine ⟨⟨?_, ?_, hva⟩, ?_, ?_, hva, hvr⟩ <;>
    simp [RefreshManager.handler, newRefreshManager, hc1, hab, hga, hgr,
      setHeader, setStatus]

/-- C5 witness: the emission behaviour at concrete managers and a request
carrying the header authorization: Bearer x. -/
theorem c5_refreshEmission_witness :
    (((newRefreshManager tmGoodI tmRefreshI).handler ctxBearer).1.respHeaders =
        setKV ctxBearer.respHeaders "x-access-token" "AT" ∧
      ((newRefreshManager tmGoodI tmRefreshI).handler ctxBearer).2 =
        [REvent.setAccessEv "AT", REvent.respondEv] ∧
      isOkE (tmGoodI.verifyToken "AT") = true) ∧
    ((({ newRefreshManager tmGoodI tmRefreshI with
          rotateRefreshToken := true }).handler ctxBearer).1.respHeaders =
        setKV (setKV ctxBearer.respHeaders "x-access-token" "AT") "x-refresh-token" "RT" ∧
      (({ newRefreshManager tmGoodI tmRefreshI with
          rotateRefreshToken := true }).handler ctxBearer).2 =
        [REvent.setAccessEv "AT", REvent.setRefreshEv "RT", REvent.respondEv] ∧
      isOkE (tmGoodI.verifyToken "AT") = true ∧
        isOkE (tmRefreshI.verifyToken "RT") = true) :=
  c5_refreshEmission tmGoodI tmRefreshI ctxBearer "x" claimsU "AT" "RT"
    rfl rfl (by decide) rfl rfl rfl rfl rfl

/-- C6: with rotation enabled, when the access token has been generated and
emitted and the refresh-token generation then fails, the handler records
status 500 without aborting, its emission trace is exactly the access
setter (the refresh setter and the response finalizer never run), and the
already written x-access-token header stays in the response. -/
theorem c6_rotateGenFailure (a r : TokenManagerI α) (c : GinCtx α) (s : String)
    (clm : GoClaims α) (atk : String) (e : GoErr)
    (hab : c.aborted = false)
    (hex : defaultExtractToken c = s)
    (hs : s ≠ "")
    (hver : r.verifyToken s = .ok clm)
    (hga : a.generateToken clm = .ok atk)
    (hgr : r.generateToken clm = .error e) :
    (({ newRefreshManager a r with rotateRefreshToken := true }).handler c).1.status
        = some 500 ∧
      (({ newRefreshManager a r with rotateRefreshToken := true }).handler c).1.respHeaders
        = setKV c.respHeaders "x-access-token" atk ∧
      (({ newRefreshManager a r with rotateRefreshToken := true }).handler c).2
        = [REvent.setAccessEv atk] ∧
      (({ newRefreshManager a r with rotateRefreshToken := true }).handler c).1.aborted
        = false := by
  have hc1 : (buildRun (newMiddlewareBuilder r) c).1 = { c with claimsVal := some clm } := by
    simp [buildRun, newMiddlewareBuilder, hex, hs, hver]
  refine ⟨?_, ?_, ?_, ?_⟩ <;>
    simp [RefreshManager.handler, newRefreshManager, hc1, hab, hga, hgr,
      setHeader, setStatus]

/-- C6 witness: the rotation-failure behaviour at concrete managers whose
refresh-token generation fails. -/
theorem c6_rotateGenFailure_witness :
    (({ newRefreshManager tmGoodI tmGenFailI with
          rotateRefreshToken := true }).handler ctxBearer).1.status = some 500 ∧
      (({ newRefreshManager tmGoodI tmGenFailI with
          rotateRefreshToken := true }).handler ctxBearer).1.respHeaders
        = setKV ctxBearer.respHeaders "x-access-token" "AT" ∧
      (({ newRefreshManager tmGoodI tmGenFailI with
          rotateRefreshToken := true }).handler ctxBearer).2
        = [REvent.setAccessEv "AT"] ∧
      (({ newRefreshManager tmGoodI tmGenFailI with
          rotateRefreshToken := true }).handler ctxBearer).1.aborted = false :=
  c6_rotateGenFailure tmGoodI tmGenFailI ctxBearer "x" claimsU "AT"
    { msg := "boom", cause := none } rfl rfl (by decide) rfl rfl rfl

/-- Reading an untouched index after a heap write is unchanged. -/
theorem listGetD_set_ne [Inhabited β] :
    ∀ (l : List β) (i j : Nat) (v : β), j ≠ i →
      List.getD (List.set l i v) j default = List.getD l j default := by
  intro l
  induction l with
  | nil => intro i j v _; rfl
  | cons a t ih =>
    intro i j v hne
    cases i with
    | zero =>
      cases j with
      | zero => exact absurd rfl hne
      | succ j2 => rfl
    | succ i2 =>
      cases j with
      | zero => rfl
      | succ j2 =>
        simpa [List.getD] using ih i2 j2 v (fun hh => hne (congrArg Nat.succ hh))

/-- Reading a written index inside the heap returns the written value. -/
theorem listGetD_set_self [Inhabited β] :
    ∀ (l : List β) (i : Nat) (v : β), i < l.length →
      List.getD (List.set l i v) i default = v := by
  intro l
  induction l with
  | nil => intro i v h; exact absurd h (by simp)
  | cons a t ih =>
    intro i v h
    cases i with
    | zero => rfl
    | succ i2 => simpa [List.getD] using ih i2 v (by simpa using h)

/-- Reading an old index after allocating a fresh cell is unchanged. -/
theorem listGetD_append_left [Inhabited β] :
    ∀ (l : List β) (j : Nat) (v : β), j < l.length →
      List.getD (List.append l [v]) j default = List.getD l j default := by
  intro l
  induction l with
  | nil => intro j v h; exact absurd h (by simp)
  | cons a t ih =>
    intro j v h
    cases j with
    | zero => rfl
    | succ j2 => simpa [List.getD] using ih j2 v (by simpa using h)

/-- Reading the freshly allocated cell returns the allocated value. -/
theorem listGetD_append_self [Inhabited β] :
    ∀ (l : List β) (v : β),
      List.getD (List.append l [v]) l.length default = v := by
  intro l
  induction l with
  | nil => intro v; rfl
  | cons a t ih => intro v; exact ih v

/-- heapRead_write_self reads back a written cell. -/
theorem heapRead_write_self [Inhabited β] (h : Heap β) (i : Nat) (v : β)
    (hi : i < Heap.size h) : Heap.read (Heap.write h i v) i = v :=
  listGetD_set_self h i v hi

/-- heapRead_write_ne reads an unrelated cell across a write. -/
theorem heapRead_write_ne [Inhabited β] (h : Heap β) (i j : Nat) (v : β)
    (hne : j ≠ i) : Heap.read (Heap.write h i v) j = Heap.read h j :=
  listGetD_set_ne h i j v hne

/-- Folding option applications that write one fixed cell keeps the heap
size, accumulates the function applications in that cell, and leaves every
other cell untouched. -/
theorem foldlWrite_facts [Inhabited β] :
    ∀ (opts : List (β → β)) (hh : Heap β) (cI : Nat), cI < Heap.size hh →
      Heap.size (List.foldl (fun h2 o => Heap.write h2 cI (o (Heap.read h2 cI))) hh opts)
          = Heap.size hh ∧
        Heap.read (List.foldl (fun h2 o => Heap.write h2 cI (o (Heap.read h2 cI))) hh opts) cI
          = List.foldl (fun v o => o v) (Heap.read hh cI) opts ∧
        ∀ j, j ≠ cI →
          Heap.read (List.foldl (fun h2 o => Heap.write h2 cI (o (Heap.read h2 cI))) hh opts) j
            = Heap.read hh j := by
  intro opts
  induction opts with
  | nil => intro hh cI hc; exact ⟨rfl, rfl, fun j _ => rfl⟩
  | cons o rest ih =>
    intro hh cI hc
    have hsz : Heap.size (Heap.write hh cI (o (Heap.read hh cI))) = Heap.size hh := by
      simp [Heap.size, Heap.write]
    obtain ⟨s1, r1, p1⟩ := ih (Heap.write hh cI (o (Heap.read hh cI))) cI (by rw [hsz]; exact hc)
    refine ⟨?_, ?_, ?_⟩
    · rw [List.foldl_cons, s1, hsz]
    · rw [List.foldl_cons, List.foldl_cons, r1, heapRead_write_self hh cI _ hc]
    · intro j hj
      rw [List.foldl_cons, p1 j hj, heapRead_write_ne hh cI j _ hj]

/-- C7: WithOptions is copy-on-write.  For every heap, every valid pointer
r to a TokenManagerServer and every option list, WithOptions returns a
pointer distinct from r, the struct r points to is unchanged afterwards,
and the new pointer holds the original configuration with the options
applied in order. -/
theorem c7_withOptionsCow (h : Heap (TokenManagerServer α)) (r : Nat)
    (hr : r < Heap.size h) (opts : List (TMSOption α)) :
    (withOptionsH h r opts).2 ≠ r ∧
      Heap.read (withOptionsH h r opts).1 r = Heap.read h r ∧
      Heap.read (withOptionsH h r opts).1 (withOptionsH h r opts).2 =
        List.foldl (fun t o => o t) (Heap.read h r) opts := by
  have hcI : Heap.size h < Heap.size (Heap.alloc h (Heap.read h r)).1 := by
    simp [Heap.size, Heap.alloc]
  obtain ⟨s1, r1, p1⟩ := foldlWrite_facts opts (Heap.alloc h (Heap.read h r)).1 (Heap.size h) hcI
  have hsnd : (withOptionsH h r opts).2 = Heap.size h := rfl
  refine ⟨?_, ?_, ?_⟩
  · rw [hsnd]; exact ne_of_gt hr
  · have hne : r ≠ Heap.size h := ne_of_lt hr
    have ha : Heap.read (Heap.alloc h (Heap.read h r)).1 r = Heap.read h r :=
      listGetD_append_left h r _ hr
    calc Heap.read (withOptionsH h r opts).1 r
        = Heap.read (Heap.alloc h (Heap.read h r)).1 r := p1 r hne
      _ = Heap.read h r := ha
  · rw [hsnd]
    have ha : Heap.read (Heap.alloc h (Heap.read h r)).1 (Heap.size h) = Heap.read h r :=
      listGetD_append_self h _
    calc Heap.read (withOptionsH h r opts).1 (Heap.size h)
        = List.foldl (fun v o => o v)
            (Heap.read (Heap.alloc h (Heap.read h r)).1 (Heap.size h)) opts := r1
      _ = List.foldl (fun v o => o v) (Heap.read h r) opts := by rw [ha]

/-- C7 witness: copy-on-write at the one-cell heap holding mgrSmall with a
decrypt-key and an issuer option. -/
theorem c7_withOptionsCow_witness :
    (withOptionsH heapTMS 0 [withDecryptKey "x", withIssuer "me"]).2 ≠ 0 ∧
      Heap.read (withOptionsH heapTMS 0 [withDecryptKey "x", withIssuer "me"]).1 0 =
        Heap.read heapTMS 0 ∧
      Heap.read (withOptionsH heapTMS 0 [withDecryptKey "x", withIssuer "me"]).1
          (withOptionsH heapTMS 0 [withDecryptKey "x", withIssuer "me"]).2 =
        List.foldl (fun t o => o t) (Heap.read heapTMS 0)
          [withDecryptKey "x", withIssuer "me"] :=
  c7_withOptionsCow heapTMS 0 (by decide) [withDecryptKey "x", withIssuer "me"]

/-- C10: the four middleware configurators return the same pointer they
received and update the pointed-to builder in place, and a handler built
before a configurator call reads the builder cell at invocation time, so
it observes the new configuration on a later request. -/
theorem c10_configuratorsInPlace (h : Heap (MiddlewareBuilder α)) (r : Nat)
    (hr : r < Heap.size h) (fnI : GinCtx α → Bool) (fnE : GinCtx α → String)
    (fnS : GinCtx α → GoClaims α → GinCtx α) (paths : List String) (c : GinCtx α) :
    (ignorePathFuncH h r fnI).2 = r ∧
      (setExtractTokenFuncH h r fnE).2 = r ∧
      (setClaimsFuncH h r fnS).2 = r ∧
      (ignoreFullPathH h r paths).2 = r ∧
      Heap.read (ignorePathFuncH h r fnI).1 r = { Heap.read h r with ignorePath := fnI } ∧
      Heap.read (setExtractTokenFuncH h r fnE).1 r
        = { Heap.read h r with extractToken := fnE } ∧
      Heap.read (setClaimsFuncH h r fnS).1 r = { Heap.read h r with setClaims := fnS } ∧
      Heap.read (ignoreFullPathH h r paths).1 r
        = { Heap.read h r with ignorePath := ignoreFullPaths paths } ∧
      runBuilt (ignorePathFuncH h r fnI).1 r c
        = buildRun { Heap.read h r with ignorePath := fnI } c :=
  ⟨rfl, rfl, rfl, rfl,
    heapRead_write_self h r _ hr, heapRead_write_self h r _ hr,
    heapRead_write_self h r _ hr, heapRead_write_self h r _ hr,
    by
      show buildRun (Heap.read (Heap.write h r _) r) c = _
      rw [heapRead_write_self h r _ hr]⟩

/-- C10 witness: in-place reconfiguration observed by a prebuilt handler at
the one-cell builder heap. -/
theorem c10_configuratorsInPlace_witness :
    (ignorePathFuncH heapMwB 0 (fun _ => true)).2 = 0 ∧
      (setExtractTokenFuncH heapMwB 0 (fun _ => "tok")).2 = 0 ∧
      (setClaimsFuncH heapMwB 0 (fun c2 _ => c2)).2 = 0 ∧
      (ignoreFullPathH heapMwB 0 ["/login"]).2 = 0 ∧
      Heap.read (ignorePathFuncH heapMwB 0 (fun _ => true)).1 0
        = { Heap.read heapMwB 0 with ignorePath := fun _ => true } ∧
      Heap.read (setExtractTokenFuncH heapMwB 0 (fun _ => "tok")).1 0
        = { Heap.read heapMwB 0 with extractToken := fun _ => "tok" } ∧
      Heap.read (setClaimsFuncH heapMwB 0 (fun c2 _ => c2)).1 0
        = { Heap.read heapMwB 0 with setClaims := fun c2 _ => c2 } ∧
      Heap.read (ignoreFullPathH heapMwB 0 ["/login"]).1 0
        = { Heap.read heapMwB 0 with ignorePath := ignoreFullPaths ["/login"] } ∧
      runBuilt (ignorePathFuncH heapMwB 0 (fun _ => true)).1 0 ctxNoAuth
        = buildRun { Heap.read heapMwB 0 with ignorePath := fun _ => true } ctxNoAuth :=
  c10_configuratorsInPlace heapMwB 0 (by decide) (fun _ => true) (fun _ => "tok")
    (fun c2 _ => c2) ["/login"] ctxNoAuth

/-- C8: status mapping of the rate gates.  The slide-window gate aborts 500
on any limiter backend error and 429 on an over-capacity report; the
bucket gate aborts 504 when the error is the deadline-exceeded or the
cancellation sentinel, 500 on any other backend error, and 429 on an
over-capacity report.  Each aborted outcome is independent of the rest of
the chain, so the request is never admitted. -/
theorem c8_gateStatusMapping (bswE bswL : SWBuilder α) (bkD bkC bkO bkL : BucketBuilder α)
    (next : GinCtx α → GinCtx α) (c : GinCtx α) (e : LimErr) (m : String)
    (hswE : bswE.limiter (bswE.genKeyFn c) = .error e)
    (hswL : bswL.limiter (bswL.genKeyFn c) = .ok true)
    (hbkD : bkD.limiter "" = .error LimErr.deadlineExceeded)
    (hbkC : bkC.limiter "" = .error LimErr.canceled)
    (hbkO : bkO.limiter "" = .error (LimErr.other m))
    (hbkL : bkL.limiter "" = .ok true) :
    swBuild bswE next c = abortWithStatus c 500 ∧
      swBuild bswL next c = abortWithStatus c 429 ∧
      bucketBuild bkD next c = abortWithStatus c 504 ∧
      bucketBuild bkC next c = abortWithStatus c 504 ∧
      bucketBuild bkO next c = abortWithStatus c 500 ∧
      bucketBuild bkL next c = abortWithStatus c 429 := by
  unfold swBuild bucketBuild
  rw [hswE, hswL, hbkD, hbkC, hbkO, hbkL]
  exact ⟨rfl, rfl, rfl, rfl, rfl, rfl⟩

/-- C8 witness: the status mapping at concrete builders for each limiter
outcome, with the identity continuation. -/
theorem c8_gateStatusMapping_witness :
    swBuild swErrB (fun c2 => c2) ctxNoAuth = abortWithStatus ctxNoAuth 500 ∧
      swBuild swLimB (fun c2 => c2) ctxNoAuth = abortWithStatus ctxNoAuth 429 ∧
      bucketBuild bkDeadB (fun c2 => c2) ctxNoAuth = abortWithStatus ctxNoAuth 504 ∧
      bucketBuild bkCancB (fun c2 => c2) ctxNoAuth = abortWithStatus ctxNoAuth 504 ∧
      bucketBuild bkErrB (fun c2 => c2) ctxNoAuth = abortWithStatus ctxNoAuth 500 ∧
      bucketBuild bkLimB (fun c2 => c2) ctxNoAuth = abortWithStatus ctxNoAuth 429 :=
  c8_gateStatusMapping swErrB swLimB bkDeadB bkCancB bkErrB bkLimB (fun c2 => c2)
    ctxNoAuth (LimErr.other "down") "down" rfl rfl rfl rfl rfl rfl

/-- C9: the acquire and release pairing of the active-count gate.  When the
acquire call succeeds, exactly one Decr with the recomputed derived key is
recorded, whatever the rest of the chain does (admission, 429 rejection, or
a downstream panic, covered by the arbitrary continuation); when the
acquire call itself errs, no Decr is recorded. -/
theorem c9_acquireRelease (bOk bErr : ActiveBuilder α)
    (next : GinCtx α → HandlerOutcome α) (c : GinCtx α) (e : LimErr)
    (hok : isOkE (bOk.limiter.limit (bOk.genKeyFn c)) = true)
    (herr : bErr.limiter.limit (bErr.genKeyFn c) = .error e) :
    (activeBuild bOk next c).2 = [bOk.genKeyFn c] ∧
      (activeBuild bErr next c).2 = [] := by
  constructor
  · unfold activeBuild
    cases hl : bOk.limiter.limit (bOk.genKeyFn c) with
    | error e2 => rw [hl] at hok; simp [isOkE] at hok
    | ok limited =>
      cases limited with
      | true => rfl
      | false =>
        cases hn : next c with
        | normal cN => simp [hn]
        | panicked => simp [hn]
  · unfold activeBuild
    rw [herr]

/-- C9 witness: the pairing at concrete builders, with a continuation that
panics downstream. -/
theorem c9_acquireRelease_witness :
    (activeBuild alOkB (fun _ => HandlerOutcome.panicked) ctxNoAuth).2
        = [alOkB.genKeyFn ctxNoAuth] ∧
      (activeBuild alErrB (fun _ => HandlerOutcome.panicked) ctxNoAuth).2 = [] :=
  c9_acquireRelease alOkB alErrB (fun _ => HandlerOutcome.panicked) ctxNoAuth
    (LimErr.other "down") rfl rfl

end Ginx
